import Mathlib

/-!
Verification development for the e-commerce storefront backend
(Express controllers over MongoDB, Braintree payment gateway).

The repository snapshot ships unit tests of the controllers but not the
controller modules themselves, so each controller below is modelled from
the specification (sections 4.1, 4.2, 4.3, 7 and 8 of the spec), as a
pure Lean function over explicit request data, explicit store state and
explicit gateway behaviour.  External effects are represented by data:
the HTTP response becomes a value, a database write becomes a returned
document, a file-system read becomes an application of a supplied
function, and a callback-based gateway call becomes a case split on a
supplied outcome.
-/

namespace Ecom

/-! ## Payment gateway and order model -/

/-- Modelled from the spec: a cart item as submitted at checkout.  The
payment controller source is absent from the snapshot; the payment
flow of the spec reads exactly one field of each item, its price. -/
structure CartItem where
  price : Int
  deriving DecidableEq, Repr

/-- Modelled from the spec: the sale request handed to the gateway, with
the computed amount, the opaque payment-method nonce, and the
submit-for-settlement flag. -/
structure SaleRequest where
  amount : Int
  paymentMethodNonce : String
  submitForSettlement : Bool
  deriving DecidableEq, Repr

/-- The transaction result payload of the gateway on a successful sale. -/
structure TransactionInfo where
  transactionId : String
  deriving DecidableEq, Repr

/-- Modelled from the spec: the three ways the callback-based gateway
sale call can behave — the callback reports success, the callback
reports an error, or the call itself throws synchronously. -/
inductive SaleOutcome where
  | success (result : TransactionInfo)
  | failure (error : String)
  | throws (error : String)
  deriving DecidableEq, Repr

/-- Modelled from the spec: the Order document persisted on a successful
payment capture, referencing the cart items and the requesting buyer. -/
structure OrderRecord where
  products : List CartItem
  payment : TransactionInfo
  buyer : String
  deriving DecidableEq, Repr

/-- The HTTP response the payment controller can produce: the bare JSON
object ok true, or an error status carrying the raw gateway error. -/
inductive PaymentResponse where
  | okJson
  | errorSent (status : Nat) (error : String)
  deriving DecidableEq, Repr

/-- Everything observable about one run of the payment controller: the
sale request passed to the gateway (if any), the order saved (if any),
the HTTP response sent (none means the request is left hanging), and
what was written to the log. -/
structure PaymentOutcome where
  saleCall : Option SaleRequest
  savedOrder : Option OrderRecord
  response : Option PaymentResponse
  logged : List String
  deriving DecidableEq, Repr

/-- Modelled from the spec: the total is computed by summing the price
field across cart items, with no server-side re-pricing. -/
def cartTotal (cart : List CartItem) : Int :=
  (cart.map fun i => i.price).sum

/-- The sale request the payment controller submits: the cart total as
amount, the given nonce, and the settlement flag set. -/
def paymentSaleRequest (nonce : String) (cart : List CartItem) : SaleRequest :=
  { amount := cartTotal cart
    paymentMethodNonce := nonce
    submitForSettlement := true }

/-- Modelled from the spec: processPayment (brainTreePaymentController).
The controller module is missing from the snapshot.  Per the spec it
computes the total by summing price across cart items, submits a sale
transaction for that amount with the settlement flag set, on gateway
success persists an Order referencing the buyer and cart items and
responds with the bare JSON ok true, on gateway failure responds HTTP 500
with the raw gateway error, and on an unexpected synchronous error only
logs it and never sends a response. -/
def brainTreePaymentController (nonce : String) (cart : List CartItem)
    (buyerId : String) (sale : SaleRequest → SaleOutcome) : PaymentOutcome :=
  match sale (paymentSaleRequest nonce cart) with
  | SaleOutcome.success result =>
      { saleCall := some (paymentSaleRequest nonce cart)
        savedOrder := some { products := cart, payment := result, buyer := buyerId }
        response := some PaymentResponse.okJson
        logged := [] }
  | SaleOutcome.failure e =>
      { saleCall := some (paymentSaleRequest nonce cart)
        savedOrder := none
        response := some (PaymentResponse.errorSent 500 e)
        logged := [] }
  | SaleOutcome.throws e =>
      { saleCall := some (paymentSaleRequest nonce cart)
        savedOrder := none
        response := none
        logged := [e] }

/-- Modelled from the spec: how the callback-based client-token
generation call can behave, mirroring SaleOutcome. -/
inductive ClientTokenOutcome where
  | success (resp : String)
  | failure (error : String)
  | throws (error : String)
  deriving DecidableEq, Repr

/-- The HTTP response of the token controller: the gateway response sent
verbatim, or an error status with the raw error object. -/
inductive TokenResponse where
  | sent (resp : String)
  | errorSent (status : Nat) (error : String)
  deriving DecidableEq, Repr

/-- Observable outcome of one run of the token controller. -/
structure TokenControllerOutcome where
  response : Option TokenResponse
  logged : List String
  deriving DecidableEq, Repr

/-- Modelled from the spec: getBraintreeToken (braintreeTokenController).
The controller module is missing from the snapshot.  Per the spec it
requests a client token from the gateway and returns it verbatim, on
gateway error returns HTTP 500 with the raw error object, and on an
unexpected synchronous error logs it and never sends a response. -/
def braintreeTokenController (generate : ClientTokenOutcome) : TokenControllerOutcome :=
  match generate with
  | ClientTokenOutcome.success r =>
      { response := some (TokenResponse.sent r), logged := [] }
  | ClientTokenOutcome.failure e =>
      { response := some (TokenResponse.errorSent 500 e), logged := [] }
  | ClientTokenOutcome.throws e =>
      { response := none, logged := [e] }

/-! ## Catalog model: product create/update, photo, pagination, filters -/

/-- Modelled from the spec: the form fields of a product create/update
request; each is optional because the controller validates presence of
name, description, price, category and quantity. -/
structure ProductFields where
  name : Option String
  description : Option String
  price : Option Int
  category : Option String
  quantity : Option Int
  shipping : Option Bool
  deriving DecidableEq, Repr

/-- Modelled from the spec: the uploaded photo file as exposed to the
controller — its byte size, the temporary path its bytes are read from,
and its declared content-type. -/
structure PhotoUpload where
  size : Nat
  path : String
  type : String
  deriving DecidableEq, Repr

/-- Modelled from the spec: a Product document; the binary data of the photo
and content-type are stored inline on the document. -/
structure ProductDoc where
  name : String
  slug : String
  description : String
  price : Int
  category : String
  quantity : Int
  shipping : Option Bool
  photoData : Option (List Nat)
  photoContentType : Option String
  deriving DecidableEq, Repr

/-- Observable outcome of one run of the product create or update
controller: the HTTP status, the validation error message if any, the
persisted document if any, and the list of file-system paths read. -/
structure ProductWriteOutcome where
  status : Nat
  error : Option String
  product : Option ProductDoc
  fsReads : List String
  deriving DecidableEq, Repr

/-- A validation rejection: HTTP 500 with the given error message,
nothing persisted, no file read. -/
def fieldError (msg : String) : ProductWriteOutcome :=
  { status := 500, error := some msg, product := none, fsReads := [] }

/-- Modelled from the spec: createProduct (createProductController).
The controller module is missing from the snapshot.  Per the spec it
validates that name, description, price, category and quantity are
present (responding 500 with a field-specific message otherwise, the
messages taken from the tests in the repository), rejects an attached photo
larger than 1,000,000 bytes with 500 and the message photo is Required
and should be less then 1mb, otherwise derives the slug from the name,
reads the photo bytes from the uploaded file and stores them inline with
the content-type of the upload, persists the product and responds 201. -/
def createProductController (fields : ProductFields) (photo : Option PhotoUpload)
    (fsRead : String → List Nat) (slugify : String → String) : ProductWriteOutcome :=
  match fields.name, fields.description, fields.price, fields.category, fields.quantity with
  | none, _, _, _, _ => fieldError "Name is Required"
  | some _, none, _, _, _ => fieldError "Description is Required"
  | some _, some _, none, _, _ => fieldError "Price is Required"
  | some _, some _, some _, none, _ => fieldError "Category is Required"
  | some _, some _, some _, some _, none => fieldError "Quantity is Required"
  | some n, some d, some pr, some c, some q =>
    match photo with
    | some ph =>
      if ph.size > 1000000 then
        fieldError "photo is Required and should be less then 1mb"
      else
        { status := 201, error := none
          product := some { name := n, slug := slugify n, description := d, price := pr
                            category := c, quantity := q, shipping := fields.shipping
                            photoData := some (fsRead ph.path)
                            photoContentType := some ph.type }
          fsReads := [ph.path] }
    | none =>
        { status := 201, error := none
          product := some { name := n, slug := slugify n, description := d, price := pr
                            category := c, quantity := q, shipping := fields.shipping
                            photoData := none, photoContentType := none }
          fsReads := [] }

/-- Modelled from the spec: updateProduct (updateProductController).
Same validation and photo-size rule as createProduct; the photo is
replaced wholesale when one is attached, and the existing stored photo
is left untouched when none is attached. -/
def updateProductController (existing : ProductDoc) (fields : ProductFields)
    (photo : Option PhotoUpload) (fsRead : String → List Nat)
    (slugify : String → String) : ProductWriteOutcome :=
  match fields.name, fields.description, fields.price, fields.category, fields.quantity with
  | none, _, _, _, _ => fieldError "Name is Required"
  | some _, none, _, _, _ => fieldError "Description is Required"
  | some _, some _, none, _, _ => fieldError "Price is Required"
  | some _, some _, some _, none, _ => fieldError "Category is Required"
  | some _, some _, some _, some _, none => fieldError "Quantity is Required"
  | some n, some d, some pr, some c, some q =>
    match photo with
    | some ph =>
      if ph.size > 1000000 then
        fieldError "photo is Required and should be less then 1mb"
      else
        { status := 201, error := none
          product := some { name := n, slug := slugify n, description := d, price := pr
                            category := c, quantity := q, shipping := fields.shipping
                            photoData := some (fsRead ph.path)
                            photoContentType := some ph.type }
          fsReads := [ph.path] }
    | none =>
        { status := 201, error := none
          product := some { name := n, slug := slugify n, description := d, price := pr
                            category := c, quantity := q, shipping := fields.shipping
                            photoData := existing.photoData
                            photoContentType := existing.photoContentType }
          fsReads := [] }

/-- The response of the photo endpoint: HTTP status, the Content-type header
value, and the binary body. -/
structure PhotoResponse where
  status : Nat
  contentTypeHeader : Option String
  body : List Nat
  deriving DecidableEq, Repr

/-- Modelled from the spec: getPhoto (productPhotoController).  The
controller module is missing from the snapshot.  Per the spec it streams
the stored binary with its content-type, and sends no response at all
when no photo data is stored. -/
def productPhotoController (product : ProductDoc) : Option PhotoResponse :=
  match product.photoData with
  | some data =>
      some { status := 200, contentTypeHeader := product.photoContentType, body := data }
  | none => none

/-- The query shape issued by the paginated product listing. -/
structure ListQuery where
  skip : Int
  limit : Int
  sortByCreatedAtDesc : Bool
  excludePhoto : Bool
  deriving DecidableEq, Repr

/-- Modelled from the spec: paginated listing (productListController).
The controller module is missing from the snapshot.  Per the spec the
page parameter is 1-indexed and defaults to 1 when missing, the page
size is 6, skip is (page - 1) * 6, results are sorted by creation time
descending, and the photo field is excluded. -/
def productListController (page : Option Int) : ListQuery :=
  { skip := (page.getD 1 - 1) * 6
    limit := 6
    sortByCreatedAtDesc := true
    excludePhoto := true }

/-- The query shape built by the faceted filter endpoint: an optional
category clause (a list of category ids) and an optional price clause
(the gte and lte bounds). -/
structure FilterQuery where
  category : Option (List String)
  price : Option (Int × Int)
  deriving DecidableEq, Repr

/-- Modelled from the spec: the query construction of the filter endpoint —
a category clause equal to the checked ids plus a price clause with gte
the first and lte the second element of radio, either clause omitted
when its input array is empty. -/
def buildFilterQuery (checked : List String) (radio : List Int) : FilterQuery :=
  { category := if checked.length > 0 then some checked else none
    price := if radio.length > 0 then some (radio.getD 0 0, radio.getD 1 0) else none }

/-- Mongo-style semantics of a filter query against one product document:
the category must be among the listed ids and the price within the
bounds, a missing clause constraining nothing. -/
def matchesFilter (q : FilterQuery) (p : ProductDoc) : Bool :=
  (match q.category with
   | some cats => cats.contains p.category
   | none => true) &&
  (match q.price with
   | some (lo, hi) => decide (lo ≤ p.price) && decide (p.price ≤ hi)
   | none => true)

/-- Observable outcome of one run of the filter controller: the query it
issued, the HTTP status, and the products returned. -/
structure FilterOutcome where
  query : FilterQuery
  status : Nat
  products : List ProductDoc
  deriving DecidableEq, Repr

/-- Modelled from the spec: filter-by-category-and-price-range
(productFiltersController).  The controller module is missing from the
snapshot.  Per the spec it builds the query from the checked category
ids and the radio price range and on success returns the matching
products with HTTP 200. -/
def productFiltersController (checked : List String) (radio : List Int)
    (catalog : List ProductDoc) : FilterOutcome :=
  let q := buildFilterQuery checked radio
  { query := q, status := 200, products := catalog.filter (matchesFilter q) }

/-! ## Auth model: login -/

/-- Modelled from the spec: a User document — name, email, hashed
password, phone, address, plaintext security answer, numeric role. -/
structure UserDoc where
  userId : String
  name : String
  email : String
  password : String
  phone : String
  address : String
  answer : String
  role : Int
  deriving DecidableEq, Repr

/-- The user object embedded in a successful login response. -/
structure ResponseUser where
  userId : String
  name : String
  email : String
  phone : String
  address : String
  role : Int
  deriving DecidableEq, Repr

/-- The signed token issued on login: its payload carries the user id
and it expires after the given number of days. -/
structure AuthToken where
  payloadUserId : String
  expiresInDays : Nat
  deriving DecidableEq, Repr

/-- A login response body: a failure message, or success with a message,
the response user object and the signed token. -/
inductive LoginBody where
  | failure (message : String)
  | success (message : String) (user : ResponseUser) (token : AuthToken)
  deriving DecidableEq, Repr

/-- The projection of a stored user onto the fields included in the
login response; the stored password hash and the security answer are not
among them. -/
def responseUserOf (u : UserDoc) : ResponseUser :=
  { userId := u.userId, name := u.name, email := u.email
    phone := u.phone, address := u.address, role := u.role }

/-- Modelled from the spec: login (loginController).  The controller
module is missing from the snapshot.  Per the spec it rejects with 404
if either field is missing or the user is not found, compares the hashed
password and on mismatch returns 200 with success false and the message
Invalid Password, and on success returns 200 with the user object and a
signed token containing the user id that expires after 7 days.  The
lookup and the hash comparison are passed in as functions. -/
def loginController (email password : Option String)
    (findByEmail : String → Option UserDoc)
    (comparePassword : String → String → Bool) : Nat × LoginBody :=
  match email, password with
  | some e, some pw =>
    match findByEmail e with
    | none => (404, LoginBody.failure "Email is not registerd")
    | some u =>
      if comparePassword pw u.password then
        (200, LoginBody.success "login successfully" (responseUserOf u)
                { payloadUserId := u.userId, expiresInDays := 7 })
      else
        (200, LoginBody.failure "Invalid Password")
  | _, _ => (404, LoginBody.failure "Invalid email or password")

/-! ## Order status model -/

/-- The slice of an Order document the status endpoint touches: its id
and its status string. -/
structure OrderStatusDoc where
  orderId : String
  status : String
  deriving DecidableEq, Repr

/-- Observable outcome of one run of the order-status controller: the
store after the write, and the response body (the updated document
returned as bare JSON, or none when the order id is unknown). -/
structure OrderStatusOutcome where
  store : String → Option OrderStatusDoc
  response : Option OrderStatusDoc

/-- Modelled from the spec: orderStatusUpdate (orderStatusController).
The controller module is missing from the snapshot.  Per the spec it is
an unconditional field overwrite — any status string can overwrite any
other, with no validation of legal transitions — and it returns the
updated document as bare JSON. -/
def orderStatusController (store : String → Option OrderStatusDoc)
    (orderId newStatus : String) : OrderStatusOutcome :=
  match store orderId with
  | some o =>
      let updated : OrderStatusDoc := { o with status := newStatus }
      { store := fun k => if k = orderId then some updated else store k
        response := some updated }
  | none => { store := store, response := none }

/-! ## Concrete instances used by the witnesses -/

/-- A gateway behaviour that always reports a successful sale. -/
def saleAlwaysSucceeds : SaleRequest → SaleOutcome :=
  fun _ => SaleOutcome.success { transactionId := "txn123" }

/-- A complete set of product form fields used by the witnesses. -/
def demoFields : ProductFields :=
  { name := some "Phone", description := some "Nice", price := some 10
    category := some "c1", quantity := some 1, shipping := some true }

/-- A small photo upload (10 bytes) used by the witnesses. -/
def demoPhoto : PhotoUpload :=
  { size := 10, path := "C:/tmp/photo.jpg", type := "image/jpeg" }

/-- A photo upload one byte over the limit, used by the witnesses. -/
def demoBigPhoto : PhotoUpload :=
  { size := 1000001, path := "/tmp/a", type := "image/jpeg" }

/-- A photo upload exactly at the limit, used by the witnesses. -/
def demoOkPhoto : PhotoUpload :=
  { size := 1000000, path := "/tmp/a", type := "image/jpeg" }

/-- A file system holding three bytes at every path. -/
def demoFs : String → List Nat :=
  fun _ => [1, 2, 3]

/-- A slug derivation used by the witnesses. -/
def demoSlugify : String → String :=
  fun _ => "mock-slug"

/-- An existing product document used by the update witnesses. -/
def demoExisting : ProductDoc :=
  { name := "Old", slug := "old", description := "old", price := 5
    category := "c0", quantity := 2, shipping := none
    photoData := some [9, 9], photoContentType := some "image/gif" }

/-- A store holding one order, used by the order-status witness. -/
def demoOrderStore : String → Option OrderStatusDoc :=
  fun k => if k = "order123" then some { orderId := "order123", status := "Processing" }
           else none

/-- A stored user record used by the login witnesses. -/
def demoUser : UserDoc :=
  { userId := "user123", name := "John Doe", email := "john@example.com"
    password := "hashed-password", phone := "1234567890"
    address := "123 Main St", answer := "blue", role := 0 }

/-- A one-user directory used by the login witnesses. -/
def demoFindByEmail : String → Option UserDoc :=
  fun e => if e = "john@example.com" then some demoUser else none

/-- A hash comparison that accepts exactly the pair password123 against
hashed-password, used by the login witnesses. -/
def demoComparePassword : String → String → Bool :=
  fun pw hash => pw = "password123" && hash = "hashed-password"

end Ecom

namespace Ecom

/-! ## Claim theorems -/

/-- C1: brainTreePaymentController invokes the gateway sale with amount
equal to the sum of the price fields of the cart items, the given nonce
and the settlement flag set; if the gateway callback reports success an
Order referencing the cart items and the buyer is saved and the response
is the bare JSON object ok true; if the callback reports an error no
order is created and the response is HTTP 500 with the raw gateway
error. -/
theorem c1_brainTreePayment_flow (nonce buyerId : String) (cart : List CartItem)
    (sale : SaleRequest → SaleOutcome) :
    (brainTreePaymentController nonce cart buyerId sale).saleCall
        = some (paymentSaleRequest nonce cart) ∧
    (paymentSaleRequest nonce cart).amount = (cart.map fun i => i.price).sum ∧
    (paymentSaleRequest nonce cart).paymentMethodNonce = nonce ∧
    (paymentSaleRequest nonce cart).submitForSettlement = true ∧
    (∀ result, sale (paymentSaleRequest nonce cart) = SaleOutcome.success result →
      (brainTreePaymentController nonce cart buyerId sale).savedOrder
          = some { products := cart, payment := result, buyer := buyerId } ∧
      (brainTreePaymentController nonce cart buyerId sale).response
          = some PaymentResponse.okJson) ∧
    (∀ e, sale (paymentSaleRequest nonce cart) = SaleOutcome.failure e →
      (brainTreePaymentController nonce cart buyerId sale).savedOrder = none ∧
      (brainTreePaymentController nonce cart buyerId sale).response
          = some (PaymentResponse.errorSent 500 e)) := by
  refine ⟨?_, rfl, rfl, rfl, ?_, ?_⟩ <;>
    cases h : sale (paymentSaleRequest nonce cart) <;>
      simp [brainTreePaymentController, h]

/-- Witness for C1 at the example cart of the spec of prices 100 and 200 with
an always-successful gateway: the saved order references the cart and the
buyer, and the response is the bare JSON ok true. -/
theorem c1_brainTreePayment_flow_witness :
    (brainTreePaymentController "test-nonce" [⟨100⟩, ⟨200⟩] "user123" saleAlwaysSucceeds).savedOrder
        = some { products := [⟨100⟩, ⟨200⟩], payment := { transactionId := "txn123" }
                 buyer := "user123" } ∧
    (brainTreePaymentController "test-nonce" [⟨100⟩, ⟨200⟩] "user123" saleAlwaysSucceeds).response
        = some PaymentResponse.okJson := by
  have h := c1_brainTreePayment_flow "test-nonce" "user123" [⟨100⟩, ⟨200⟩] saleAlwaysSucceeds
  exact h.2.2.2.2.1 { transactionId := "txn123" } rfl

/-- C8: braintreeTokenController sends the gateway response verbatim when
the callback reports success, responds HTTP 500 with the raw error when
the callback reports an error, and when the gateway call throws
synchronously it only logs the exception and never sends any HTTP
response. -/
theorem c8_braintreeToken_responses (g : ClientTokenOutcome) :
    (∀ r, g = ClientTokenOutcome.success r →
      (braintreeTokenController g).response = some (TokenResponse.sent r) ∧
      (braintreeTokenController g).logged = []) ∧
    (∀ e, g = ClientTokenOutcome.failure e →
      (braintreeTokenController g).response = some (TokenResponse.errorSent 500 e) ∧
      (braintreeTokenController g).logged = []) ∧
    (∀ e, g = ClientTokenOutcome.throws e →
      (braintreeTokenController g).response = none ∧
      (braintreeTokenController g).logged = [e]) := by
  cases g <;> simp [braintreeTokenController]

/-- Witness for C8 at a synchronously-throwing gateway: no response is
ever sent and the error is logged. -/
theorem c8_braintreeToken_responses_witness :
    (braintreeTokenController (ClientTokenOutcome.throws "Unexpected error")).response = none ∧
    (braintreeTokenController (ClientTokenOutcome.throws "Unexpected error")).logged
        = ["Unexpected error"] := by
  have h := c8_braintreeToken_responses (ClientTokenOutcome.throws "Unexpected error")
  exact h.2.2 "Unexpected error" rfl

/-- C2: storing then fetching a photo is a round-trip: for every product
created with an attached photo of size at most 1,000,000 bytes, the
stored photo data equals the bytes read from the uploaded file and the
stored content-type equals the type of the upload, and the photo endpoint for
that product responds HTTP 200 with a Content-type header equal to the
original content-type and a body byte-identical to the stored data. -/
theorem c2_photo_roundtrip (n d c : String) (pr q : Int) (sh : Option Bool)
    (ph : PhotoUpload) (fsRead : String → List Nat) (slugify : String → String)
    (hsize : ph.size ≤ 1000000) :
    ∃ p, (createProductController ⟨some n, some d, some pr, some c, some q, sh⟩
            (some ph) fsRead slugify).product = some p ∧
      (createProductController ⟨some n, some d, some pr, some c, some q, sh⟩
            (some ph) fsRead slugify).status = 201 ∧
      p.photoData = some (fsRead ph.path) ∧
      p.photoContentType = some ph.type ∧
      productPhotoController p
          = some { status := 200, contentTypeHeader := some ph.type
                   body := fsRead ph.path } := by
  have hlt : ¬ ph.size > 1000000 := by omega
  refine ⟨{ name := n, slug := slugify n, description := d, price := pr, category := c
            quantity := q, shipping := sh, photoData := some (fsRead ph.path)
            photoContentType := some ph.type }, ?_, ?_, rfl, rfl, rfl⟩ <;>
    simp [createProductController, hlt]

/-- Witness for C2 at a concrete 10-byte upload: the created product
stores the read bytes and content-type and the photo endpoint returns
them with HTTP 200. -/
theorem c2_photo_roundtrip_witness :
    ∃ p, (createProductController demoFields (some demoPhoto) demoFs demoSlugify).product
            = some p ∧
      (createProductController demoFields (some demoPhoto) demoFs demoSlugify).status = 201 ∧
      p.photoData = some (demoFs demoPhoto.path) ∧
      p.photoContentType = some demoPhoto.type ∧
      productPhotoController p
          = some { status := 200, contentTypeHeader := some demoPhoto.type
                   body := demoFs demoPhoto.path } := by
  exact c2_photo_roundtrip "Phone" "Nice" "c1" 10 1 (some true) demoPhoto demoFs demoSlugify
    (by decide)

/-- C3: orderStatusController performs an unconditional overwrite — for
every order id, every prior stored status and every new status string,
the stored status after the operation equals the new string, and the
response is the updated order document as bare JSON. -/
theorem c3_orderStatus_overwrite (store : String → Option OrderStatusDoc)
    (orderId newStatus : String) (o : OrderStatusDoc) (h : store orderId = some o) :
    (orderStatusController store orderId newStatus).store orderId
        = some { o with status := newStatus } ∧
    ((orderStatusController store orderId newStatus).store orderId).map (fun d => d.status)
        = some newStatus ∧
    (orderStatusController store orderId newStatus).response
        = some { o with status := newStatus } := by
  simp [orderStatusController, h]

/-- Witness for C3 at a store holding one order with prior status
Processing: overwriting with Delivered stores Delivered and returns the
updated document. -/
theorem c3_orderStatus_overwrite_witness :
    (orderStatusController demoOrderStore "order123" "Delivered").store "order123"
        = some { orderId := "order123", status := "Delivered" } ∧
    ((orderStatusController demoOrderStore "order123" "Delivered").store "order123").map
        (fun d => d.status) = some "Delivered" ∧
    (orderStatusController demoOrderStore "order123" "Delivered").response
        = some { orderId := "order123", status := "Delivered" } := by
  exact c3_orderStatus_overwrite demoOrderStore "order123" "Delivered"
    { orderId := "order123", status := "Processing" } rfl

/-- C4: the paginated product listing uses skip equal to (page - 1) * 6
and limit 6 with a missing page parameter treated as page 1, sorted by
creation time descending; in particular page 1 gives skip 0 and page 2
gives skip 6. -/
theorem c4_productList_pagination (p : Int) :
    (productListController (some p)).skip = (p - 1) * 6 ∧
    (productListController (some p)).limit = 6 ∧
    (productListController (some p)).sortByCreatedAtDesc = true ∧
    productListController none = productListController (some 1) ∧
    (productListController (some 1)).skip = 0 ∧
    (productListController (some 2)).skip = 6 := by
  refine ⟨rfl, rfl, rfl, rfl, by decide, by decide⟩

/-- C5: the query of the filter controller has a category clause equal to the
checked list exactly when it is non-empty and a price clause with the
gte and lte bounds of the radio pair exactly when radio is non-empty, so
empty checked and radio give the empty query; the matching products are
returned with HTTP 200. -/
theorem c5_productFilters_query (checked : List String) (radio : List Int)
    (lo hi : Int) (catalog : List ProductDoc) :
    ((productFiltersController checked radio catalog).query.category = none ↔ checked = []) ∧
    ((productFiltersController checked radio catalog).query.price = none ↔ radio = []) ∧
    (checked ≠ [] →
      (productFiltersController checked radio catalog).query.category = some checked) ∧
    (radio = [lo, hi] →
      (productFiltersController checked radio catalog).query.price = some (lo, hi)) ∧
    (checked = [] → radio = [] →
      (productFiltersController checked radio catalog).query
          = { category := none, price := none }) ∧
    (productFiltersController checked radio catalog).status = 200 ∧
    (productFiltersController checked radio catalog).products
        = catalog.filter (matchesFilter (buildFilterQuery checked radio)) := by
  refine ⟨?_, ?_, ?_, ?_, ?_, rfl, rfl⟩
  · cases checked <;> simp [productFiltersController, buildFilterQuery]
  · cases radio <;> simp [productFiltersController, buildFilterQuery]
  · intro h
    cases checked with
    | nil => exact absurd rfl h
    | cons a t => simp [productFiltersController, buildFilterQuery]
  · intro h
    subst h
    simp [productFiltersController, buildFilterQuery]
  · intro h1 h2
    subst h1
    subst h2
    simp [productFiltersController, buildFilterQuery]

/-- Witness for C5 at the examples of the spec: checked c1, c2 with radio
10, 50 gives the category and price clauses, and empty inputs give the
empty query. -/
theorem c5_productFilters_query_witness :
    (productFiltersController ["c1", "c2"] [10, 50] []).query.category = some ["c1", "c2"] ∧
    (productFiltersController ["c1", "c2"] [10, 50] []).query.price = some (10, 50) ∧
    (productFiltersController [] [] []).query = { category := none, price := none } := by
  refine ⟨?_, ?_, ?_⟩
  · exact (c5_productFilters_query ["c1", "c2"] [10, 50] 10 50 []).2.2.1 (by simp)
  · exact (c5_productFilters_query ["c1", "c2"] [10, 50] 10 50 []).2.2.2.1 rfl
  · exact (c5_productFilters_query [] [] 0 0 []).2.2.2.2.1 rfl rfl

/-- C6: login responds 404 when either field is missing or the email is
unregistered, 200 with success false and the message Invalid Password
when the hash comparison fails, and otherwise 200 with success and a
signed token whose payload contains exactly the user id and whose expiry
is 7 days. -/
theorem c6_login_cases (email password : Option String)
    (findByEmail : String → Option UserDoc) (cmp : String → String → Bool) :
    ((email = none ∨ password = none) →
      loginController email password findByEmail cmp
          = (404, LoginBody.failure "Invalid email or password")) ∧
    (∀ e pw, email = some e → password = some pw → findByEmail e = none →
      loginController email password findByEmail cmp
          = (404, LoginBody.failure "Email is not registerd")) ∧
    (∀ e pw u, email = some e → password = some pw → findByEmail e = some u →
      cmp pw u.password = false →
      loginController email password findByEmail cmp
          = (200, LoginBody.failure "Invalid Password")) ∧
    (∀ e pw u, email = some e → password = some pw → findByEmail e = some u →
      cmp pw u.password = true →
      loginController email password findByEmail cmp
          = (200, LoginBody.success "login successfully" (responseUserOf u)
                    { payloadUserId := u.userId, expiresInDays := 7 })) := by
  refine ⟨?_, ?_, ?_, ?_⟩
  · intro h
    cases email with
    | none => cases password <;> rfl
    | some e =>
      cases password with
      | none => rfl
      | some pw => simp at h
  · rintro e pw rfl rfl h
    simp [loginController, h]
  · rintro e pw u rfl rfl hu hc
    simp [loginController, hu, hc]
  · rintro e pw u rfl rfl hu hc
    simp [loginController, hu, hc]

/-- Witness for C6: the demo user logs in with the right password and
receives the 7-day token on their id, and a request missing the password
is rejected 404. -/
theorem c6_login_cases_witness :
    loginController (some "john@example.com") (some "password123")
        demoFindByEmail demoComparePassword
      = (200, LoginBody.success "login successfully" (responseUserOf demoUser)
                { payloadUserId := demoUser.userId, expiresInDays := 7 }) ∧
    loginController (some "john@example.com") none demoFindByEmail demoComparePassword
      = (404, LoginBody.failure "Invalid email or password") := by
  constructor
  · exact (c6_login_cases (some "john@example.com") (some "password123")
      demoFindByEmail demoComparePassword).2.2.2 "john@example.com" "password123" demoUser
      rfl rfl (by simp [demoFindByEmail]) (by simp [demoComparePassword, demoUser])
  · exact (c6_login_cases (some "john@example.com") none
      demoFindByEmail demoComparePassword).1 (Or.inr rfl)

/-- C7: with all required fields present and a photo attached, create
and update both reject with HTTP 500 and the message photo is Required
and should be less then 1mb when the photo exceeds 1,000,000 bytes, and
both accept the photo and persist the product when it is at or below
1,000,000 bytes. -/
theorem c7_photo_size_boundary (n d c : String) (pr q : Int) (sh : Option Bool)
    (ph : PhotoUpload) (existing : ProductDoc) (fsRead : String → List Nat)
    (slugify : String → String) :
    (ph.size > 1000000 →
      createProductController ⟨some n, some d, some pr, some c, some q, sh⟩
          (some ph) fsRead slugify
        = fieldError "photo is Required and should be less then 1mb" ∧
      updateProductController existing ⟨some n, some d, some pr, some c, some q, sh⟩
          (some ph) fsRead slugify
        = fieldError "photo is Required and should be less then 1mb") ∧
    (ph.size ≤ 1000000 →
      (createProductController ⟨some n, some d, some pr, some c, some q, sh⟩
          (some ph) fsRead slugify).status = 201 ∧
      (createProductController ⟨some n, some d, some pr, some c, some q, sh⟩
          (some ph) fsRead slugify).product.isSome = true ∧
      (updateProductController existing ⟨some n, some d, some pr, some c, some q, sh⟩
          (some ph) fsRead slugify).status = 201 ∧
      (updateProductController existing ⟨some n, some d, some pr, some c, some q, sh⟩
          (some ph) fsRead slugify).product.isSome = true) := by
  constructor
  · intro h
    simp [createProductController, updateProductController, h]
  · intro h
    have hlt : ¬ ph.size > 1000000 := by omega
    simp [createProductController, updateProductController, hlt]

/-- Witness for C7 at the boundary: a 1,000,001-byte photo is rejected
with the photo-size error on both create and update, and a
1,000,000-byte photo is accepted with HTTP 201. -/
theorem c7_photo_size_boundary_witness :
    createProductController demoFields (some demoBigPhoto) demoFs demoSlugify
        = fieldError "photo is Required and should be less then 1mb" ∧
    updateProductController demoExisting demoFields (some demoBigPhoto) demoFs demoSlugify
        = fieldError "photo is Required and should be less then 1mb" ∧
    (createProductController demoFields (some demoOkPhoto) demoFs demoSlugify).status = 201 ∧
    (updateProductController demoExisting demoFields (some demoOkPhoto) demoFs
        demoSlugify).status = 201 := by
  refine ⟨?_, ?_, ?_, ?_⟩
  · exact ((c7_photo_size_boundary "Phone" "Nice" "c1" 10 1 (some true) demoBigPhoto
      demoExisting demoFs demoSlugify).1 (by decide)).1
  · exact ((c7_photo_size_boundary "Phone" "Nice" "c1" 10 1 (some true) demoBigPhoto
      demoExisting demoFs demoSlugify).1 (by decide)).2
  · exact ((c7_photo_size_boundary "Phone" "Nice" "c1" 10 1 (some true) demoOkPhoto
      demoExisting demoFs demoSlugify).2 (by decide)).1
  · exact ((c7_photo_size_boundary "Phone" "Nice" "c1" 10 1 (some true) demoOkPhoto
      demoExisting demoFs demoSlugify).2 (by decide)).2.2.1

/-- C9: the user object in a successful login response carries only the
id, name, email, phone, address and role of the stored user, and it is
unchanged under any change of the stored password hash or security
answer, so neither is ever included in the login response payload. -/
theorem c9_login_response_fields (e pw : String)
    (findByEmail : String → Option UserDoc) (cmp : String → String → Bool)
    (u : UserDoc) (hu : findByEmail e = some u) (hc : cmp pw u.password = true) :
    (loginController (some e) (some pw) findByEmail cmp).2
        = LoginBody.success "login successfully" (responseUserOf u)
            { payloadUserId := u.userId, expiresInDays := 7 } ∧
    (responseUserOf u).userId = u.userId ∧
    (responseUserOf u).name = u.name ∧
    (responseUserOf u).email = u.email ∧
    (responseUserOf u).phone = u.phone ∧
    (responseUserOf u).address = u.address ∧
    (responseUserOf u).role = u.role ∧
    (∀ hash ans, responseUserOf { u with password := hash, answer := ans }
        = responseUserOf u) := by
  refine ⟨?_, rfl, rfl, rfl, rfl, rfl, rfl, fun _ _ => rfl⟩
  simp [loginController, hu, hc]

/-- Witness for C9 at the demo user: the successful response body holds
the six-field projection and the 7-day token. -/
theorem c9_login_response_fields_witness :
    (loginController (some "john@example.com") (some "password123")
        demoFindByEmail demoComparePassword).2
      = LoginBody.success "login successfully" (responseUserOf demoUser)
          { payloadUserId := demoUser.userId, expiresInDays := 7 } := by
  exact (c9_login_response_fields "john@example.com" "password123" demoFindByEmail
    demoComparePassword demoUser (by simp [demoFindByEmail])
    (by simp [demoComparePassword, demoUser])).1

/-- C10: with all required fields present and no photo attached, both
create and update pass validation, read no file from disk, persist the
product with HTTP 201, and update leaves the existing stored photo data
and content-type untouched. -/
theorem c10_photo_optional (n d c : String) (pr q : Int) (sh : Option Bool)
    (existing : ProductDoc) (fsRead : String → List Nat) (slugify : String → String) :
    (createProductController ⟨some n, some d, some pr, some c, some q, sh⟩
        none fsRead slugify).status = 201 ∧
    (createProductController ⟨some n, some d, some pr, some c, some q, sh⟩
        none fsRead slugify).error = none ∧
    (createProductController ⟨some n, some d, some pr, some c, some q, sh⟩
        none fsRead slugify).fsReads = [] ∧
    (createProductController ⟨some n, some d, some pr, some c, some q, sh⟩
        none fsRead slugify).product.isSome = true ∧
    (updateProductController existing ⟨some n, some d, some pr, some c, some q, sh⟩
        none fsRead slugify).status = 201 ∧
    (updateProductController existing ⟨some n, some d, some pr, some c, some q, sh⟩
        none fsRead slugify).error = none ∧
    (updateProductController existing ⟨some n, some d, some pr, some c, some q, sh⟩
        none fsRead slugify).fsReads = [] ∧
    ((updateProductController existing ⟨some n, some d, some pr, some c, some q, sh⟩
        none fsRead slugify).product.map fun p => p.photoData)
      = some existing.photoData ∧
    ((updateProductController existing ⟨some n, some d, some pr, some c, some q, sh⟩
        none fsRead slugify).product.map fun p => p.photoContentType)
      = some existing.photoContentType := by
  simp [createProductController, updateProductController]

end Ecom
